import Mathlib

/-!
Verification of the notebook `examples/notebooks/Creating Models/2-a-pde-model.ipynb`
(PyBaMM repository).  The notebook is a linear call sequence over the pybamm
library: it builds a symbolic PDE model (linear diffusion on a unit sphere),
meshes the domain, discretises, solves and plots.

Two embeddings are developed:
  * a syntactic embedding of the notebook's code cells as a small Python
    statement/expression AST (`PyExpr`, `PyStmt`, `notebookCells`), used for the
    structural claims (pipeline order, absence of control flow and of
    exception handling, in-place mutation of `model`);
  * a semantic embedding of the symbolic pybamm expressions the notebook
    constructs (`SymExpr`, and the concrete dictionaries `rhs`,
    `initial_conditions`, `boundary_conditions`, ...), used for the claims
    about the model's contents.
-/

/-- Python expressions, as used by the notebook's code cells.  Argument lists
of calls, tuples and dictionaries are encoded with the `nil`/`cons` spine
constructors so that all traversals are structurally recursive.  A keyword
argument `k=v` is `kw k v`; a dictionary entry `k: v` is `entry k v`. -/
inductive PyExpr where
  | name (s : String)
  | str (s : String)
  | num (q : ℚ)
  | attr (e : PyExpr) (field : String)
  | call (f : PyExpr) (args : PyExpr)
  | neg (e : PyExpr)
  | tuple (entries : PyExpr)
  | dict (entries : PyExpr)
  | subscript (e : PyExpr) (idx : PyExpr)
  | kw (key : String) (val : PyExpr)
  | entry (key val : PyExpr)
  | listLit (entries : PyExpr)
  | nil
  | cons (head tail : PyExpr)
deriving Repr, DecidableEq

/-- Build an argument/entry spine from a Lean list. -/
def PyExpr.spine (l : List PyExpr) : PyExpr := l.foldr PyExpr.cons PyExpr.nil

/-- The base identifier a call/attribute chain starts from (`a.b.c` ↦ `a`). -/
def PyExpr.headName : PyExpr → Option String
  | .name s => some s
  | .attr e _ => e.headName
  | _ => none

/-- Base identifiers of all function-call heads occurring in an expression. -/
def PyExpr.callHeads : PyExpr → List String
  | .name _ => []
  | .str _ => []
  | .num _ => []
  | .attr e _ => e.callHeads
  | .call f a => f.headName.toList ++ f.callHeads ++ a.callHeads
  | .neg e => e.callHeads
  | .tuple es => es.callHeads
  | .dict es => es.callHeads
  | .subscript e i => e.callHeads ++ i.callHeads
  | .kw _ v => v.callHeads
  | .entry k v => k.callHeads ++ v.callHeads
  | .listLit es => es.callHeads
  | .nil => []
  | .cons h t => h.callHeads ++ t.callHeads

/-- Python statements.  Compound bodies are single statements; `seq` chains
them.  The constructors `funcDef`, `classDef`, `forLoop`, `whileLoop`,
`ifStmt` and `tryExcept` cover the control-flow statements the notebook could
have used, so that their absence from the transcription is a checkable fact
about the source. -/
inductive PyStmt where
  | importStmt (module : String) (asName : Option String)
  | assign (target : String) (value : PyExpr)
  | attrAssign (obj field : String) (value : PyExpr)
  | tupleAssign (targets : List String) (value : PyExpr)
  | exprStmt (e : PyExpr)
  | pass
  | seq (s1 s2 : PyStmt)
  | funcDef (name : String) (params : List String) (body : PyStmt)
  | classDef (name : String) (body : PyStmt)
  | forLoop (target : String) (iter : PyExpr) (body : PyStmt)
  | whileLoop (cond : PyExpr) (body : PyStmt)
  | ifStmt (cond : PyExpr) (thenBody elseBody : PyStmt)
  | tryExcept (body handler : PyStmt)
deriving Repr, DecidableEq

/-- `true` exactly on `tryExcept`. -/
def PyStmt.isTry : PyStmt → Bool
  | .tryExcept _ _ => true
  | _ => false

/-- `true` on the simple (atomic, non-control-flow) statement forms: imports,
assignments, attribute assignments, tuple assignments and bare expression
statements. -/
def PyStmt.isSimple : PyStmt → Bool
  | .importStmt _ _ => true
  | .assign _ _ => true
  | .attrAssign _ _ _ => true
  | .tupleAssign _ _ => true
  | .exprStmt _ => true
  | _ => false

/-- Names a statement binds in the enclosing scope. -/
def PyStmt.boundNames : PyStmt → List String
  | .importStmt m a => [a.getD m]
  | .assign t _ => [t]
  | .tupleAssign ts _ => ts
  | _ => []

/-- Call heads occurring in a simple statement's expressions. -/
def PyStmt.callHeads : PyStmt → List String
  | .assign _ v => v.callHeads
  | .attrAssign _ _ v => v.callHeads
  | .tupleAssign _ v => v.callHeads
  | .exprStmt e => e.callHeads
  | _ => []

/-- Every base identifier that a statement calls (directly or through
attribute access) is either already `bound` or gets bound by an earlier
statement of the list: i.e. all computation is invoked on imported library
modules or on values previously derived from them. -/
def delegationCheck : List PyStmt → List String → Bool
  | [], _ => true
  | s :: rest, bound =>
      s.callHeads.all (fun h => bound.contains h)
        && delegationCheck rest (bound ++ s.boundNames)

/-- Execute one statement under a failure oracle `fail` (which statements
raise an exception when run).  Returns the list of statements that ran to
completion and whether execution finished normally.  `tryExcept` is the only
construct that recovers from a failure of its body; every other statement is
an atomic action that either succeeds or raises. -/
def execStmt (fail : PyStmt → Bool) : PyStmt → List PyStmt × Bool
  | .pass => ([], true)
  | .seq a b =>
      match execStmt fail a with
      | (ea, true) =>
          match execStmt fail b with
          | (eb, okb) => (ea ++ eb, okb)
      | (ea, false) => (ea, false)
  | .tryExcept body handler =>
      match execStmt fail body with
      | (eb, true) => (eb, true)
      | (eb, false) =>
          match execStmt fail handler with
          | (eh, okh) => (eb ++ eh, okh)
  | s => if fail s then ([], false) else ([s], true)

/-- Execute a statement list in order; a failure aborts the remaining
statements (at top level there is no handler to catch it). -/
def execList (fail : PyStmt → Bool) : List PyStmt → List PyStmt × Bool
  | [] => ([], true)
  | s :: rest =>
      match execStmt fail s with
      | (es, true) =>
          match execList fail rest with
          | (er, okr) => (es ++ er, okr)
      | (es, false) => (es, false)

/-- Name-binding effect of a statement list: imports, assignments and tuple
assignments bind their target names to fresh object identifiers (allocation
counter in the second component); attribute assignment mutates the named
object in place and binds no name; expression statements bind nothing. -/
def bindEnv : List PyStmt → List (String × ℕ) × ℕ → List (String × ℕ) × ℕ
  | [], st => st
  | s :: rest, (env, n) =>
      match s with
      | .importStmt m a => bindEnv rest ((a.getD m, n) :: env, n + 1)
      | .assign t _ => bindEnv rest ((t, n) :: env, n + 1)
      | .tupleAssign ts _ =>
          bindEnv rest
            (ts.foldl (fun p t => ((t, p.2) :: p.1, p.2 + 1)) (env, n))
      | _ => bindEnv rest (env, n)

/-!  ## Transcription of the notebook's code cells

The notebook `2-a-pde-model.ipynb` has nine code cells; each is transcribed
statement by statement. -/

/-- Code cell 1: the imports. -/
def cellImports : List PyStmt :=
  [ .importStmt "pybamm" none,
    .importStmt "numpy" (some "np"),
    .importStmt "matplotlib.pyplot" (some "plt") ]

/-- Code cell 2: `model = pybamm.BaseModel()` and the concentration
variable. -/
def cellModel : List PyStmt :=
  [ .assign "model" (.call (.attr (.name "pybamm") "BaseModel") (.spine [])),
    .assign "c" (.call (.attr (.name "pybamm") "Variable")
      (.spine [.str "Concentration", .kw "domain" (.str "negative particle")])) ]

/-- Code cell 3: the flux, the right-hand side and `model.rhs`. -/
def cellRhs : List PyStmt :=
  [ .assign "N" (.neg (.call (.attr (.name "pybamm") "grad") (.spine [.name "c"]))),
    .assign "dcdt" (.neg (.call (.attr (.name "pybamm") "div") (.spine [.name "N"]))),
    .attrAssign "model" "rhs" (.dict (.spine [.entry (.name "c") (.name "dcdt")])) ]

/-- Code cell 4: initial and boundary conditions. -/
def cellConditions : List PyStmt :=
  [ .attrAssign "model" "initial_conditions"
      (.dict (.spine [.entry (.name "c")
        (.call (.attr (.name "pybamm") "Scalar") (.spine [.num 1]))])),
    .assign "lbc" (.call (.attr (.name "pybamm") "Scalar") (.spine [.num 0])),
    .assign "rbc" (.call (.attr (.name "pybamm") "Scalar") (.spine [.num 2])),
    .attrAssign "model" "boundary_conditions"
      (.dict (.spine [.entry (.name "c")
        (.dict (.spine
          [ .entry (.str "left") (.tuple (.spine [.name "lbc", .str "Dirichlet"])),
            .entry (.str "right") (.tuple (.spine [.name "rbc", .str "Neumann"])) ]))])) ]

/-- Code cell 5: `model.variables`. -/
def cellVariables : List PyStmt :=
  [ .attrAssign "model" "variables"
      (.dict (.spine [ .entry (.str "Concentration") (.name "c"),
                       .entry (.str "Flux") (.name "N") ])) ]

/-- Code cell 6: the spatial variable `r` and the geometry. -/
def cellGeometry : List PyStmt :=
  [ .assign "r" (.call (.attr (.name "pybamm") "SpatialVariable")
      (.spine [ .str "r",
                .kw "domain" (.listLit (.spine [.str "negative particle"])),
                .kw "coord_sys" (.str "spherical polar") ])),
    .assign "geometry"
      (.dict (.spine [.entry (.str "negative particle")
        (.dict (.spine [.entry (.str "primary")
          (.dict (.spine [.entry (.name "r")
            (.dict (.spine
              [ .entry (.str "min") (.call (.attr (.name "pybamm") "Scalar") (.spine [.num 0])),
                .entry (.str "max") (.call (.attr (.name "pybamm") "Scalar") (.spine [.num 1])) ]))]))]))])) ]

/-- Code cell 7: submesh types, points per variable, and the mesh. -/
def cellMesh : List PyStmt :=
  [ .assign "submesh_types"
      (.dict (.spine [.entry (.str "negative particle")
        (.call (.attr (.name "pybamm") "MeshGenerator")
          (.spine [.attr (.name "pybamm") "Uniform1DSubMesh"]))])),
    .assign "var_pts" (.dict (.spine [.entry (.name "r") (.num 20)])),
    .assign "mesh" (.call (.attr (.name "pybamm") "Mesh")
      (.spine [.name "geometry", .name "submesh_types", .name "var_pts"])) ]

/-- Code cell 8: spatial methods, discretisation, `disc.process_model(model)`. -/
def cellDiscretise : List PyStmt :=
  [ .assign "spatial_methods"
      (.dict (.spine [.entry (.str "negative particle")
        (.call (.attr (.name "pybamm") "FiniteVolume") (.spine []))])),
    .assign "disc" (.call (.attr (.name "pybamm") "Discretisation")
      (.spine [.name "mesh", .name "spatial_methods"])),
    .exprStmt (.call (.attr (.name "disc") "process_model") (.spine [.name "model"])) ]

/-- Code cell 9: solve and plot. -/
def cellSolve : List PyStmt :=
  [ .assign "solver" (.call (.attr (.name "pybamm") "ScipySolver") (.spine [])),
    .assign "t" (.call (.attr (.name "np") "linspace")
      (.spine [.num 0, .num 1, .num 100])),
    .assign "solution" (.call (.attr (.name "solver") "solve")
      (.spine [.name "model", .name "t"])),
    .assign "c" (.subscript (.name "solution") (.str "Concentration")),
    .tupleAssign ["fig", "ax1", "ax2"]
      (.call (.attr (.name "plt") "subplots")
        (.spine [.num 1, .num 2, .kw "figsize" (.tuple (.spine [.num 13, .num 4]))])),
    .exprStmt (.call (.attr (.name "ax1") "plot")
      (.spine [ .attr (.name "solution") "t",
                .call (.name "c") (.spine [.attr (.name "solution") "t", .kw "r" (.num 1)]) ])),
    .exprStmt (.call (.attr (.name "ax1") "set_xlabel") (.spine [.str "t"])),
    .exprStmt (.call (.attr (.name "ax1") "set_ylabel") (.spine [.str "Surface concentration"])),
    .assign "r" (.call (.attr (.name "np") "linspace") (.spine [.num 0, .num 1, .num 100])),
    .exprStmt (.call (.attr (.name "ax2") "plot")
      (.spine [ .name "r",
                .call (.name "c") (.spine [.kw "t" (.num 0.5), .kw "r" (.name "r")]) ])),
    .exprStmt (.call (.attr (.name "ax2") "set_xlabel") (.spine [.str "r"])),
    .exprStmt (.call (.attr (.name "ax2") "set_ylabel") (.spine [.str "Concentration at t=0.5"])),
    .exprStmt (.call (.attr (.name "plt") "tight_layout") (.spine [])),
    .exprStmt (.call (.attr (.name "plt") "show") (.spine [])) ]

/-- The notebook's code cells in order. -/
def notebookCells : List (List PyStmt) :=
  [ cellImports, cellModel, cellRhs, cellConditions, cellVariables,
    cellGeometry, cellMesh, cellDiscretise, cellSolve ]

/-- All statements of the notebook, in execution order. -/
def allStmts : List PyStmt := notebookCells.flatten

/-- The statement `disc.process_model(model)` (a bare expression statement —
its result is not bound to any name). -/
def isProcessModelStmt : PyStmt → Bool
  | .exprStmt (.call (.attr (.name "disc") "process_model") _) => true
  | _ => false

/-- The statement `solution = solver.solve(model, t)`. -/
def isSolveStmt : PyStmt → Bool
  | .assign _ (.call (.attr (.name "solver") "solve") _) => true
  | _ => false

/-- An assignment to an attribute of `model` (the symbolic model-building
statements `model.rhs = ...`, `model.initial_conditions = ...`, ...). -/
def isModelAttrAssign : PyStmt → Bool
  | .attrAssign "model" _ _ => true
  | _ => false

/-- A statement that invokes matplotlib plotting machinery (through `plt` or
the axes objects `ax1`, `ax2`). -/
def isPlotStmt (s : PyStmt) : Bool :=
  s.callHeads.any (fun h => h = "plt" || h = "ax1" || h = "ax2")

/-- A statement that calls into pybamm (directly or through the pybamm
objects `disc`, `solver`, `mesh` or `model`). -/
def isPybammCompute (s : PyStmt) : Bool :=
  s.callHeads.any (fun h =>
    h = "pybamm" || h = "disc" || h = "solver" || h = "mesh" || h = "model")

/-- Index of `disc.process_model(model)` in `allStmts`. -/
def processModelIdx : ℕ := allStmts.findIdx isProcessModelStmt

/-- Index of `solution = solver.solve(model, t)` in `allStmts`. -/
def solveIdx : ℕ := allStmts.findIdx isSolveStmt

/-!  ## Symbolic pybamm expressions

The notebook builds symbolic expression trees through the pybamm API.  The
constructors below are exactly the pybamm symbol kinds the notebook uses:
`pybamm.Scalar`, `pybamm.Variable` (carrying a domain),
`pybamm.SpatialVariable` (carrying a domain and a coordinate system),
`pybamm.grad`, `pybamm.div` and unary negation. -/

/-- A symbolic pybamm expression tree. -/
inductive SymExpr where
  | scalar (q : ℚ)
  | var (name : String) (domain : List String)
  | spatialVar (name : String) (domain : List String) (coord_sys : String)
  | grad (e : SymExpr)
  | div (e : SymExpr)
  | neg (e : SymExpr)
deriving Repr, DecidableEq

/-- `true` when the expression contains no (spatial) variable, i.e. denotes a
constant. -/
def SymExpr.isConstant : SymExpr → Bool
  | .scalar _ => true
  | .var _ _ => false
  | .spatialVar _ _ _ => false
  | .grad e => e.isConstant
  | .div e => e.isConstant
  | .neg e => e.isConstant

/-- An interpretation of symbolic expressions in a carrier type `D`:
how each pybamm symbol kind acts. -/
structure SymModel (D : Type) where
  scalarD : ℚ → D
  varD : String → List String → D
  spatialVarD : String → List String → String → D
  gradD : D → D
  divD : D → D
  negD : D → D

/-- Denotation of a symbolic expression under an interpretation. -/
def SymExpr.denote {D : Type} (M : SymModel D) : SymExpr → D
  | .scalar q => M.scalarD q
  | .var n d => M.varD n d
  | .spatialVar n d cs => M.spatialVarD n d cs
  | .grad e => M.gradD (e.denote M)
  | .div e => M.divD (e.denote M)
  | .neg e => M.negD (e.denote M)

/-- The pybamm boundary-condition types ("Dirichlet" or "Neumann"). -/
inductive BCType where
  | Dirichlet
  | Neumann
deriving Repr, DecidableEq

namespace NB

/-- `c = pybamm.Variable("Concentration", domain="negative particle")`. -/
def c : SymExpr := .var "Concentration" ["negative particle"]

/-- `N = -pybamm.grad(c)` — the flux. -/
def N : SymExpr := .neg (.grad c)

/-- `dcdt = -pybamm.div(N)` — the right-hand side equation. -/
def dcdt : SymExpr := .neg (.div N)

/-- `model.rhs = {c: dcdt}`. -/
def rhs : List (SymExpr × SymExpr) := [(c, dcdt)]

/-- `model.initial_conditions = {c: pybamm.Scalar(1)}`. -/
def initial_conditions : List (SymExpr × SymExpr) := [(c, .scalar 1)]

/-- `lbc = pybamm.Scalar(0)`. -/
def lbc : SymExpr := .scalar 0

/-- `rbc = pybamm.Scalar(2)`. -/
def rbc : SymExpr := .scalar 2

/-- `model.boundary_conditions =
      {c: {"left": (lbc, "Dirichlet"), "right": (rbc, "Neumann")}}`. -/
def boundary_conditions : List (SymExpr × List (String × (SymExpr × BCType))) :=
  [(c, [("left", (lbc, BCType.Dirichlet)), ("right", (rbc, BCType.Neumann))])]

/-- `model.variables = {"Concentration": c, "Flux": N}`. -/
def model_variables : List (String × SymExpr) :=
  [("Concentration", c), ("Flux", N)]

/-- `r = pybamm.SpatialVariable("r", domain=["negative particle"],
     coord_sys="spherical polar")`. -/
def r : SymExpr := .spatialVar "r" ["negative particle"] "spherical polar"

end NB

/-- The `{"min": ..., "max": ...}` limits of a 1-D domain. -/
structure SpatialLimits where
  min : SymExpr
  max : SymExpr
deriving Repr, DecidableEq

namespace NB

/-- `geometry = {"negative particle":
      {"primary": {r: {"min": pybamm.Scalar(0), "max": pybamm.Scalar(1)}}}}`. -/
def geometry : List (String × List (String × List (SymExpr × SpatialLimits))) :=
  [("negative particle", [("primary", [(r, ⟨.scalar 0, .scalar 1⟩)])])]

end NB

/-- The submesh classes the notebook mentions. -/
inductive SubMeshClass where
  | Uniform1DSubMesh
  | Exponential1DSubMesh
deriving Repr, DecidableEq

/-- `pybamm.MeshGenerator(submesh_class)`: a generator wrapping a submesh
class (the uniform one takes no further parameters). -/
structure MeshGenerator where
  submesh_class : SubMeshClass
deriving Repr, DecidableEq

namespace NB

/-- `submesh_types = {"negative particle":
      pybamm.MeshGenerator(pybamm.Uniform1DSubMesh)}`. -/
def submesh_types : List (String × MeshGenerator) :=
  [("negative particle", ⟨.Uniform1DSubMesh⟩)]

/-- `var_pts = {r: 20}`. -/
def var_pts : List (SymExpr × ℕ) := [(NB.r, 20)]

end NB

/-- `pybamm.Mesh(geometry, submesh_types, var_pts)`: the mesh is built from
the geometry (domain bounds), the submesh generators, and the point counts —
nothing else. -/
structure Mesh where
  geometry : List (String × List (String × List (SymExpr × SpatialLimits)))
  submesh_types : List (String × MeshGenerator)
  var_pts : List (SymExpr × ℕ)
deriving Repr, DecidableEq

namespace NB

/-- `mesh = pybamm.Mesh(geometry, submesh_types, var_pts)`. -/
def mesh : Mesh := ⟨geometry, submesh_types, var_pts⟩

end NB

/-- `np.linspace(start, stop, num)` (numpy's default `endpoint=True`):
`num` samples `start + (stop - start) * i / (num - 1)`, `i = 0, ..., num-1`. -/
def linspace (start stop : ℚ) (num : ℕ) : List ℚ :=
  (List.range num).map (fun (i : ℕ) => start + (stop - start) * (i : ℚ) / ((num : ℚ) - 1))

/-- The statement `mesh = pybamm.Mesh(...)`. -/
def isMeshAssign : PyStmt → Bool
  | .assign "mesh" _ => true
  | _ => false

/-- A statement that defines a function or class, or is a loop or a
conditional. -/
def isDefOrControlFlow : PyStmt → Bool
  | .funcDef _ _ _ => true
  | .classDef _ _ => true
  | .forLoop _ _ _ => true
  | .whileLoop _ _ => true
  | .ifStmt _ _ _ => true
  | _ => false

/-- A concrete interpretation of the symbolic operators over ℤ, with a
genuinely non-trivial action for each operator (used to instantiate the
algebraic theorem about the right-hand side). -/
def intSymModel : SymModel ℤ :=
  ⟨fun _ => 0, fun _ _ => 7, fun _ _ _ => 5, fun x => x + 1, fun x => 2 * x, fun x => -x⟩

/-!  ## Helper lemmas -/

theorem execStmt_simple (fail : PyStmt → Bool) (s : PyStmt) (h : s.isSimple = true) :
    execStmt fail s = if fail s then ([], false) else ([s], true) := by
  cases s <;> first | rfl | simp [PyStmt.isSimple] at h

theorem execList_simple (fail : PyStmt → Bool) (l : List PyStmt)
    (h : ∀ s ∈ l, s.isSimple = true) :
    execList fail l = (l.takeWhile (fun s => ! fail s), l.all (fun s => ! fail s)) := by
  induction l with
  | nil => rfl
  | cons s rest ih =>
      have hs : s.isSimple = true := h s (List.mem_cons_self s rest)
      have hr := ih (fun x hx => h x (List.mem_cons_of_mem s hx))
      by_cases hf : fail s
      · simp [execList, execStmt_simple fail s hs, hf]
      · simp [execList, execStmt_simple fail s hs, hf, hr]

theorem linspace_length (a b : ℚ) (n : ℕ) : (linspace a b n).length = n := by
  unfold linspace
  rw [List.length_map, List.length_range]

theorem linspace_getElem (a b : ℚ) (n i : ℕ) (h : i < n) :
    (linspace a b n)[i]? = some (a + (b - a) * i / ((n : ℚ) - 1)) := by
  unfold linspace
  rw [List.getElem?_map, List.getElem?_range h]
  rfl

theorem linspace_head (a b : ℚ) (n : ℕ) (h : 0 < n) :
    (linspace a b n).head? = some a := by
  unfold linspace
  rw [List.head?_map]
  cases n with
  | zero => exact absurd h (by norm_num)
  | succ m =>
      rw [List.range_succ_eq_map]
      simp

theorem linspace_last :
    (linspace 0 1 100).getLast? = some 1 := by
  have h0 := linspace_getElem 0 1 100 99 (by norm_num)
  rw [List.getLast?_eq_getElem?, linspace_length]
  rw [show (100 : ℕ) - 1 = 99 from rfl, h0]
  norm_num

theorem linspace_chain :
    List.Chain' (fun x y : ℚ => y - x = 1 / 99) (linspace 0 1 100) := by
  rw [List.chain'_iff_get]
  intro i h
  rw [linspace_length] at h
  simp only [List.get_eq_getElem, linspace, List.getElem_map, List.getElem_range]
  push_cast
  ring_nf

/-!  ## The claims -/

/-- C1: the notebook's markdown problem statement requires the zero-gradient
Neumann condition `dc/dr = 0` at the left boundary `r = 0`, but the code cell
installs the entry `("left", (lbc, "Dirichlet"))` with `lbc = pybamm.Scalar(0)`
— a Dirichlet (fixed-value) condition, not the stated Neumann condition.  The
right boundary does get the stated Neumann condition with value 2.  This
theorem evaluates the installed dictionary at both sides. -/
theorem C1_left_boundary_condition_is_dirichlet_not_neumann :
    allStmts[11]? = some (.attrAssign "model" "boundary_conditions"
      (.dict (.spine [.entry (.name "c")
        (.dict (.spine
          [ .entry (.str "left") (.tuple (.spine [.name "lbc", .str "Dirichlet"])),
            .entry (.str "right") (.tuple (.spine [.name "rbc", .str "Neumann"])) ]))])))
    ∧ List.lookup "left" ((List.lookup NB.c NB.boundary_conditions).getD []) =
        some (NB.lbc, BCType.Dirichlet)
    ∧ List.lookup "right" ((List.lookup NB.c NB.boundary_conditions).getD []) =
        some (NB.rbc, BCType.Neumann)
    ∧ NB.lbc = SymExpr.scalar 0
    ∧ NB.rbc = SymExpr.scalar 2
    ∧ BCType.Dirichlet ≠ BCType.Neumann := by
  refine ⟨rfl, rfl, rfl, rfl, rfl, ?_⟩
  intro h
  exact BCType.noConfusion h

/-- C2: the notebook registers `model.rhs = {c: dcdt}` with
`dcdt = -div(N)` and `N = -grad(c)`; under any interpretation of the symbolic
operators in which `div` commutes with negation and negation is involutive
(both hold for pybamm's linear spatial operators), the two negations cancel
and the registered right-hand side denotes `div(grad(c))`. -/
theorem C2_rhs_denotes_div_grad (D : Type) (M : SymModel D)
    (hdiv : ∀ x, M.divD (M.negD x) = M.negD (M.divD x))
    (hneg : ∀ x, M.negD (M.negD x) = x) :
    List.lookup NB.c NB.rhs = some NB.dcdt ∧
    SymExpr.denote M NB.dcdt = SymExpr.denote M (.div (.grad NB.c)) := by
  refine ⟨rfl, ?_⟩
  simp [NB.dcdt, NB.N, SymExpr.denote, hdiv, hneg]

/-- Witness for C2: the cancellation evaluated in the concrete ℤ
interpretation `intSymModel`. -/
theorem C2_rhs_denotes_div_grad_witness :
    List.lookup NB.c NB.rhs = some NB.dcdt ∧
    SymExpr.denote intSymModel NB.dcdt =
      SymExpr.denote intSymModel (.div (.grad NB.c)) :=
  C2_rhs_denotes_div_grad ℤ intSymModel
    (fun x => show (2 : ℤ) * -x = -(2 * x) by ring)
    (fun x => show - -x = x by ring)

/-- C3: the mesh is built by passing to `pybamm.Mesh` exactly the geometry
(one 1-D domain "negative particle" with spatial variable `r` in spherical
polar coordinates and limits min = 0, max = 1), the uniform 1-D submesh
generator, and the point count `var_pts = {r: 20}`. -/
theorem C3_mesh_built_from_bounds_and_counts :
    allStmts[17]? = some (.assign "mesh" (.call (.attr (.name "pybamm") "Mesh")
        (.spine [.name "geometry", .name "submesh_types", .name "var_pts"])))
    ∧ NB.mesh.geometry.map Prod.fst = ["negative particle"]
    ∧ NB.r = SymExpr.spatialVar "r" ["negative particle"] "spherical polar"
    ∧ List.lookup "primary" ((List.lookup "negative particle" NB.mesh.geometry).getD [])
        = some [(NB.r, ⟨SymExpr.scalar 0, SymExpr.scalar 1⟩)]
    ∧ List.lookup NB.r NB.mesh.var_pts = some 20
    ∧ List.lookup "negative particle" NB.mesh.submesh_types
        = some ⟨SubMeshClass.Uniform1DSubMesh⟩ :=
  ⟨rfl, rfl, rfl, rfl, rfl, rfl⟩

/-- C4: the notebook constructs `pybamm.ScipySolver`, sets
`t = np.linspace(0, 1, 100)`, calls `solution = solver.solve(model, t)`, and
plots afterwards; `np.linspace(0, 1, 100)` is a list of 100 output times that
starts at 0, ends at 1, and advances in equal steps of 1/99. -/
theorem C4_scipy_solver_on_even_times :
    allStmts[21]? = some (.assign "solver"
        (.call (.attr (.name "pybamm") "ScipySolver") (.spine [])))
    ∧ allStmts[22]? = some (.assign "t"
        (.call (.attr (.name "np") "linspace") (.spine [.num 0, .num 1, .num 100])))
    ∧ allStmts[solveIdx]? = some (.assign "solution"
        (.call (.attr (.name "solver") "solve") (.spine [.name "model", .name "t"])))
    ∧ solveIdx = 23
    ∧ (allStmts.drop (solveIdx + 1)).any isPlotStmt = true
    ∧ (linspace 0 1 100).length = 100
    ∧ (linspace 0 1 100).head? = some 0
    ∧ (linspace 0 1 100).getLast? = some 1
    ∧ List.Chain' (fun x y : ℚ => y - x = 1 / 99) (linspace 0 1 100) := by
  refine ⟨rfl, rfl, rfl, rfl, rfl, linspace_length 0 1 100, ?_, linspace_last, linspace_chain⟩
  exact linspace_head 0 1 100 (by norm_num)

/-- C5: pipeline order — the model-building attribute assignments all precede
`disc.process_model(model)`; the mesh is built before the discretisation
pass; `process_model` is called exactly once; it precedes `solver.solve`; all
plotting statements come after the solve; and after the solve no further
pybamm computation is invoked. -/
theorem C5_pipeline_order :
    allStmts.countP isProcessModelStmt = 1
    ∧ processModelIdx = 20
    ∧ (allStmts.drop processModelIdx).all (fun s => ! isModelAttrAssign s) = true
    ∧ allStmts.findIdx isMeshAssign < processModelIdx
    ∧ processModelIdx < solveIdx
    ∧ (allStmts.take (solveIdx + 1)).all (fun s => ! isPlotStmt s) = true
    ∧ (allStmts.drop (solveIdx + 1)).all (fun s => ! isPybammCompute s) = true
    ∧ (allStmts.drop (solveIdx + 1)).any isPlotStmt = true := by
  refine ⟨rfl, rfl, rfl, ?_, ?_, rfl, rfl, rfl⟩ <;> decide

/-- C6: the notebook contains no `try`/`except` (and, more strongly, only
simple straight-line statements), so under the execution semantics any
failing statement aborts the run: for every failure oracle, exactly the
prefix of statements before the first failure executes, and the run completes
normally iff no statement fails. -/
theorem C6_no_failure_handling :
    allStmts.all (fun s => ! s.isTry) = true
    ∧ allStmts.all PyStmt.isSimple = true
    ∧ ∀ fail : PyStmt → Bool,
        execList fail allStmts =
          (allStmts.takeWhile (fun s => ! fail s), allStmts.all (fun s => ! fail s)) := by
  refine ⟨rfl, rfl, fun fail => execList_simple fail allStmts ?_⟩
  intro s hs
  have hall : allStmts.all PyStmt.isSimple = true := rfl
  exact List.all_eq_true.mp hall s hs

/-- Witness for C6: execution under the concrete oracle that fails exactly at
the `solver.solve` statement. -/
theorem C6_no_failure_handling_witness :
    execList isSolveStmt allStmts =
      (allStmts.takeWhile (fun s => ! isSolveStmt s),
       allStmts.all (fun s => ! isSolveStmt s)) :=
  C6_no_failure_handling.2.2 isSolveStmt

/-- C7: every statement of the notebook is an import, an assignment, an
attribute assignment, a tuple assignment or a bare expression statement —
no function or class definition, no loop, no conditional — and every call is
rooted at an imported library module (`pybamm`, `np`, `plt`) or at a name
previously bound from such calls. -/
theorem C7_everything_delegated_to_libraries :
    allStmts.all PyStmt.isSimple = true
    ∧ allStmts.all (fun s => ! isDefOrControlFlow s) = true
    ∧ delegationCheck allStmts [] = true :=
  ⟨rfl, rfl, rfl⟩

/-- C8: the name `model` is bound exactly once (to `pybamm.BaseModel()`), the
discretisation pass is invoked as the bare statement
`disc.process_model(model)` whose result is not bound to any name, and under
the allocation semantics the name `model` refers to the same object
(identifier 3) at the `process_model` call site and at the later
`solver.solve(model, t)` call site. -/
theorem C8_solve_uses_same_mutated_model :
    allStmts.countP (fun s => s.boundNames.contains "model") = 1
    ∧ allStmts[3]? = some (.assign "model"
        (.call (.attr (.name "pybamm") "BaseModel") (.spine [])))
    ∧ allStmts[processModelIdx]? = some (.exprStmt
        (.call (.attr (.name "disc") "process_model") (.spine [.name "model"])))
    ∧ allStmts[solveIdx]? = some (.assign "solution"
        (.call (.attr (.name "solver") "solve") (.spine [.name "model", .name "t"])))
    ∧ processModelIdx < solveIdx
    ∧ List.lookup "model" (bindEnv (allStmts.take processModelIdx) ([], 0)).1 = some 3
    ∧ List.lookup "model" (bindEnv (allStmts.take solveIdx) ([], 0)).1 = some 3 := by
  refine ⟨rfl, rfl, rfl, rfl, ?_, rfl, rfl⟩
  decide

/-- C9: `model.initial_conditions` maps the concentration variable `c` to
`pybamm.Scalar(1)`, which contains no (spatial) variable, i.e. the initial
condition is the spatially uniform constant 1. -/
theorem C9_uniform_initial_condition :
    allStmts[8]? = some (.attrAssign "model" "initial_conditions"
      (.dict (.spine [.entry (.name "c")
        (.call (.attr (.name "pybamm") "Scalar") (.spine [.num 1]))])))
    ∧ List.lookup NB.c NB.initial_conditions = some (SymExpr.scalar 1)
    ∧ (SymExpr.scalar 1).isConstant = true :=
  ⟨rfl, rfl, rfl⟩

/-- C10: in `model.variables` the entry "Flux" is exactly `N = -grad(c)`
(minus the gradient of the concentration) and the entry "Concentration" is
the variable `c` itself. -/
theorem C10_flux_output_is_minus_grad :
    List.lookup "Flux" NB.model_variables = some NB.N
    ∧ NB.N = SymExpr.neg (SymExpr.grad NB.c)
    ∧ List.lookup "Concentration" NB.model_variables = some NB.c :=
  ⟨rfl, rfl, rfl⟩
